import Mathlib

/-!
# libavcodec/libvvenc.c : the VVenC encoder adapter

A shallow embedding of `src/libavcodec/libvvenc.c`.  The adapter's entry points
`ff_vvenc_encode_init` and `ff_vvenc_encode_frame`, its helper `ff_vvenc_expand_bytes` and
the pixel-format list of the codec descriptor become pure functions over explicit state.

* A C pointer to a buffer is a function from the element index to the element
  (`uint8_t *` is `Nat → Fin 256`, `int16_t *` is `Nat → Int`).
* The external VVenC library is a record of functions (`VVenCLib`) over an arbitrary
  encoder state `σ`; the general theorems quantify over that record, so they hold for
  every behaviour of the library.  Allocation inside the library is taken to succeed.
* Constants that live in headers outside `src/` (`AV_LOG_*`, `VVENC_*` verbosity levels,
  `AV_PKT_FLAG_KEY`) are the fields of `Headers`, a parameter of the functions that use them.
* Timestamps and sizes are mathematical integers; C signed overflow is undefined behaviour
  and is not part of the model.
-/

namespace LibVVenC

/-! ## Host framework types -/

/-- The rational number type `AVRational` of libavutil: numerator and denominator. -/
structure AVRational where
  num : Int
  den : Int
deriving DecidableEq, Repr

/-- The pixel formats the adapter distinguishes; every other member of
`enum AVPixelFormat` is `AV_PIX_FMT_OTHER id`. -/
inductive AVPixelFormat where
  | AV_PIX_FMT_YUV420P
  | AV_PIX_FMT_YUV420P10LE
  | AV_PIX_FMT_OTHER (id : Nat)
deriving DecidableEq, Repr

open AVPixelFormat

/-- The fields of `AVCodecContext` that the adapter reads. -/
structure AVCodecContext where
  width : Int
  height : Int
  framerate : AVRational
  bit_rate : Int
  global_quality : Int
  pix_fmt : AVPixelFormat
  thread_count : Int
  time_base : AVRational
  frame_number : Int

/-- The fields of `AVFrame` that the adapter reads: `data[i]` is a byte pointer,
`linesize[i]` the row stride in bytes, `pts` the presentation timestamp. -/
structure AVFrame where
  data : Nat → Nat → Fin 256
  linesize : Nat → Int
  pts : Int

/-- The fields of `AVPacket` that the adapter writes. -/
structure AVPacket where
  pts : Int
  dts : Int
  flags : Nat
  size : Int
  data : List (Fin 256)
deriving DecidableEq, Repr

/-- Constants of headers that are not under `src/` (libavutil/log.h, libavcodec/packet.h,
vvenc/vvencCfg.h).  They are parameters of the model. -/
structure Headers where
  AV_LOG_INFO : Int
  AV_LOG_VERBOSE : Int
  AV_LOG_DEBUG : Int
  VVENC_SILENT : Int
  VVENC_WARNING : Int
  VVENC_INFO : Int
  VVENC_DETAILS : Int
  AV_PKT_FLAG_KEY : Nat

/-- The values these constants have in FFmpeg's and VVenC's public headers. -/
def stdHeaders : Headers where
  AV_LOG_INFO := 32
  AV_LOG_VERBOSE := 40
  AV_LOG_DEBUG := 48
  VVENC_SILENT := 0
  VVENC_WARNING := 2
  VVENC_INFO := 3
  VVENC_DETAILS := 6
  AV_PKT_FLAG_KEY := 1

/-! ## VVenC library types -/

/-- Chroma formats of `vvencChromaFormat`. -/
inductive vvencChromaFormat where
  | VVENC_CHROMA_400
  | VVENC_CHROMA_420
  | VVENC_CHROMA_422
  | VVENC_CHROMA_444
deriving DecidableEq, Repr

/-- Presets of `vvencPresetMode`. -/
inductive vvencPresetMode where
  | VVENC_FASTER
  | VVENC_FAST
  | VVENC_MEDIUM
  | VVENC_SLOW
  | VVENC_SLOWER
deriving DecidableEq, Repr

/-- The two C streams the log callback writes to. -/
inductive OutStream where
  | stdout
  | stderr
deriving DecidableEq, Repr

/-- The fields of `vvenc_config` that the adapter reads or writes. -/
structure vvenc_config where
  m_SourceWidth : Int
  m_SourceHeight : Int
  m_verbosity : Int
  m_msgFnc : Option (Int → OutStream)
  m_internChromaFormat : vvencChromaFormat
  m_outputBitDepth0 : Int
  m_internalBitDepth0 : Int
  m_inputBitDepth0 : Int
  m_numThreads : Int
  m_FrameScale : Int
  m_TicksPerSecond : Int

/-- One plane of `vvencYUVBuffer`: `ptr` points to 16-bit samples. -/
structure vvencYUVPlane where
  ptr : Nat → Int
  width : Int
  height : Int
  stride : Int

/-- The input sample buffer `vvencYUVBuffer`. -/
structure vvencYUVBuffer where
  planes : Nat → vvencYUVPlane
  sequenceNumber : Int
  cts : Int
  ctsValid : Bool

/-- Slice types of `vvencSliceType`: B and P slices are predicted from earlier decoded
pictures, an I slice is coded without reference to any picture. -/
inductive vvencSliceType where
  | VVENC_B_SLICE
  | VVENC_P_SLICE
  | VVENC_I_SLICE
deriving DecidableEq, Repr

/-- The output access unit `vvencAccessUnit` of the library's header vvenc/vvenc.h, which
is not under `src/`.  The adapter reads `payload`, `payloadUsedSize`, `cts`, `dts` and
`refPic`.  It does not read `rap` and `sliceType`, the two fields by which the unit reports
how it depends on other pictures: `rap` marks a random access point, `sliceType` is the
slice type.  `refPic` marks a picture that other pictures use as a reference. -/
structure vvencAccessUnit where
  payload : Nat → Fin 256
  payloadSize : Int
  payloadUsedSize : Int
  cts : Int
  dts : Int
  refPic : Bool
  rap : Bool
  sliceType : vvencSliceType

/-- The external encoder library: one field per library function the adapter calls.
`σ` is the state behind the opaque `vvencEncoder *` handle.  `vvenc_encoder_create` is the
state of a freshly created encoder; `vvenc_YUVBuffer_alloc_buffer` and
`vvenc_accessUnit_alloc_payload` stand for `vvenc_YUVBuffer_alloc` and
`vvenc_accessUnit_alloc` followed by the allocation of the planes and of the payload. -/
structure VVenCLib (σ : Type) where
  vvenc_init_default : Int → Int → Int → Int → Int → vvencPresetMode → vvenc_config
  vvenc_init_config_parameter : vvenc_config → vvenc_config
  vvenc_encoder_create : σ
  vvenc_encoder_open : σ → vvenc_config → Int × σ × vvenc_config
  vvenc_YUVBuffer_alloc_buffer : vvencChromaFormat → Int → Int → vvencYUVBuffer
  vvenc_accessUnit_alloc_payload : Int → vvencAccessUnit
  vvenc_encode : σ → vvencYUVBuffer → vvencAccessUnit → Int × σ × vvencAccessUnit × Bool

/-- The private context `VVEnCContext` of an opened encoder: the three pointers
`encoder`, `yuvbuf` and `au` are valid and stand for the objects they point to. -/
structure VVEnCContext (σ : Type) where
  params : vvenc_config
  encoder : σ
  yuvbuf : vvencYUVBuffer
  au : vvencAccessUnit
  encDone : Bool

/-! ## Helpers of the adapter -/

/-- The log callback `ff_vvenc_log_callback`: level 1 goes to stderr, the rest to stdout. -/
def ff_vvenc_log_callback (level : Int) : OutStream :=
  if level = 1 then OutStream.stderr else OutStream.stdout

/-- The C conversion `(int16_t)x` of an `int`: wrap into `[-2^15, 2^15)`. -/
def int16_cast (x : Int) : Int := (x + 2 ^ 15) % 2 ^ 16 - 2 ^ 15

/-- The body of the `for` loop of `ff_vvenc_expand_bytes`, run `r` more times from index `i`:
each iteration stores `(int16_t)src[i]` at `dst[i]` and increments `i`. -/
def expand_bytes_loop (src : Nat → Fin 256) : (r : Nat) → (i : Nat) → (dst : Nat → Int) → Nat → Int
  | 0, _, dst => dst
  | r + 1, i, dst =>
      expand_bytes_loop src r (i + 1) (Function.update dst i (int16_cast ((src i).val : Int)))

/-- The helper `ff_vvenc_expand_bytes(src, dst, n)`: `for (i = 0; i < n; i++) dst[i] = (int16_t)src[i]`.
The loop runs `n` times when `n` is positive and not at all otherwise.  The result is the
destination buffer after the call. -/
def ff_vvenc_expand_bytes (src : Nat → Fin 256) (dst : Nat → Int) (n : Int) : Nat → Int :=
  expand_bytes_loop src n.toNat 0 dst

/-- The high byte of a 16-bit sample as stored in memory. -/
def sample_hi (s : Int) : Int := (s % 2 ^ 16) / 2 ^ 8

/-- The call `memcpy(dst, src, n)` with `dst` a buffer of 16-bit samples on a little-endian
host: byte `2k` is the low and byte `2k+1` the high byte of sample `k`; `n` bytes are
overwritten. -/
def memcpy_samples (dst : Nat → Int) (src : Nat → Fin 256) (n : Int) : Nat → Int :=
  fun k =>
    if ((2 * k + 1 : Nat) : Int) < n then
      int16_cast (((src (2 * k)).val : Int) + 2 ^ 8 * ((src (2 * k + 1)).val : Int))
    else if ((2 * k : Nat) : Int) < n then
      int16_cast (((src (2 * k)).val : Int) + 2 ^ 8 * sample_hi (dst k))
    else dst k

/-- Modelled from the spec: `av_make_q` of libavutil/rational.h is not under `src/`; it
builds the rational `num/den` (the spec's 90000-tick base is `av_make_q 1 90000`). -/
def av_make_q (num den : Int) : AVRational := ⟨num, den⟩

/-- Modelled from the spec: `av_rescale_q` of libavutil/mathematics.c is not under `src/`.
The spec gives the rescaled value as `round(a × bq × cq⁻¹)`; this is that value in integer
arithmetic, `a * b / c` with `b = bq.num * cq.den` and `c = cq.num * bq.den`, rounded to the
nearest integer with halves away from zero.  The 64-bit range of the C helper and its
behaviour for a non-positive `c` are not modelled; the theorems take a positive time base. -/
def av_rescale_q (a : Int) (bq cq : AVRational) : Int :=
  let b := bq.num * cq.den
  let c := cq.num * bq.den
  if a < 0 then -(((-a) * b + c / 2) / c) else (a * b + c / 2) / c

/-- Modelled from the spec: `ff_get_encode_buffer` of libavcodec/encode.c is not under
`src/`; it gives the packet a host-allocated buffer of exactly `size` bytes.  The adapter
ignores its return value. -/
def ff_get_encode_buffer (avpkt : AVPacket) (size : Int) : AVPacket :=
  { avpkt with size := size, data := List.replicate size.toNat 0 }

/-! ## `ff_vvenc_encode_frame` -/

/-- One iteration `i` of the plane loop of `ff_vvenc_encode_frame` (lines 110-117). -/
def copy_plane (avctx : AVCodecContext) (frame : AVFrame) (yuvbuf : vvencYUVBuffer) (i : Nat) :
    vvencYUVBuffer :=
  let p := yuvbuf.planes i
  if avctx.pix_fmt = AV_PIX_FMT_YUV420P10LE then
    let p1 : vvencYUVPlane :=
      { p with ptr := memcpy_samples p.ptr (frame.data i) (p.height * frame.linesize i) }
    { yuvbuf with planes := Function.update yuvbuf.planes i p1 }
  else if avctx.pix_fmt = AV_PIX_FMT_YUV420P then
    let p1 : vvencYUVPlane :=
      { p with ptr := ff_vvenc_expand_bytes (frame.data i) p.ptr (p.height * frame.linesize i) }
    { yuvbuf with planes := Function.update yuvbuf.planes i p1 }
  else yuvbuf

/-- What one call of `ff_vvenc_encode_frame` leaves behind: the return value, the private
context, the packet `*avpkt` and the flag `*got_packet_ptr`. -/
structure EncodeResult (σ : Type) where
  ret : Int
  q : VVEnCContext σ
  avpkt : AVPacket
  got_packet : Int

/-- Lines 110-121 of `ff_vvenc_encode_frame`: the input sample buffer after the plane loop
and the three assignments, as it is submitted to `vvenc_encode`. -/
def submitted_yuvbuf {σ : Type} (avctx : AVCodecContext) (q : VVEnCContext σ) (frame : AVFrame) :
    vvencYUVBuffer :=
  -- lines 110-117: for (i = 0; i < 3; i++)
  let y0 := [0, 1, 2].foldl (copy_plane avctx frame) q.yuvbuf
  -- lines 119-121
  { y0 with
    sequenceNumber := avctx.frame_number
    cts := av_rescale_q frame.pts (av_make_q 1 q.params.m_TicksPerSecond) avctx.time_base
    ctsValid := true }

/-- The function `ff_vvenc_encode_frame(avctx, avpkt, frame, got_packet_ptr)`.
`avpkt` and `got_packet` are the contents of `*avpkt` and `*got_packet_ptr` on entry. -/
def ff_vvenc_encode_frame {σ : Type} (K : Headers) (lib : VVenCLib σ) (avctx : AVCodecContext)
    (q : VVEnCContext σ) (avpkt : AVPacket) (frame : AVFrame) (got_packet : Int) :
    EncodeResult σ :=
  -- lines 110-121
  let y1 := submitted_yuvbuf avctx q frame
  -- line 123
  let r := lib.vvenc_encode q.encoder y1 q.au
  let q1 : VVEnCContext σ :=
    { q with yuvbuf := y1, encoder := r.2.1, au := r.2.2.1, encDone := r.2.2.2 }
  if r.1 ≠ 0 then
    { ret := -1, q := q1, avpkt := avpkt, got_packet := got_packet }
  else
    -- lines 127-142
    let pktSize := q1.au.payloadUsedSize
    if pktSize > 0 then
      let p0 := ff_get_encode_buffer avpkt pktSize
      let p1 : AVPacket :=
        { p0 with
          dts := av_rescale_q q1.au.dts (av_make_q 1 q.params.m_TicksPerSecond) avctx.time_base }
      let p2 : AVPacket :=
        { p1 with
          pts := av_rescale_q q1.au.cts (av_make_q 1 q.params.m_TicksPerSecond) avctx.time_base }
      let p3 : AVPacket := if q1.au.refPic then { p2 with flags := K.AV_PKT_FLAG_KEY } else p2
      let p4 : AVPacket :=
        { p3 with data := (List.range pktSize.toNat).map q1.au.payload }
      { ret := 0, q := q1, avpkt := p4, got_packet := 1 }
    else
      { ret := 0, q := q1, avpkt := avpkt, got_packet := got_packet }

/-! ## `ff_vvenc_encode_init` -/

/-- What `ff_vvenc_encode_init` leaves behind: the return value, the configuration
`q->params`, and the three pointers of the private context (`none` while init has not
assigned them).  `configured` records the configuration as the adapter built it in lines
61-87, at the moment it is handed to `vvenc_init_config_parameter`. -/
structure InitResult (σ : Type) where
  ret : Int
  configured : vvenc_config
  params : vvenc_config
  encoder : Option σ
  yuvbuf : Option vvencYUVBuffer
  au : Option vvencAccessUnit

/-- Lines 63-87 of `ff_vvenc_encode_init`: the assignments to `q->params` between
`vvenc_init_default` and `vvenc_init_config_parameter`.  `c0` is the configuration
`vvenc_init_default` left, `log_level` what `av_log_get_level()` returns. -/
def init_params (K : Headers) (log_level : Int) (avctx : AVCodecContext) (c0 : vvenc_config) :
    vvenc_config :=
  -- lines 63-67
  let c1 : vvenc_config := { c0 with m_verbosity := K.VVENC_DETAILS }
  let c2 : vvenc_config :=
    if log_level ≥ K.AV_LOG_DEBUG then { c1 with m_verbosity := K.VVENC_DETAILS }
    else if log_level ≥ K.AV_LOG_VERBOSE then { c1 with m_verbosity := K.VVENC_INFO }
    else if log_level ≥ K.AV_LOG_INFO then { c1 with m_verbosity := K.VVENC_WARNING }
    else { c1 with m_verbosity := K.VVENC_SILENT }
  -- line 69
  let c3 : vvenc_config := { c2 with m_msgFnc := some ff_vvenc_log_callback }
  -- lines 71-77
  let c4 : vvenc_config := { c3 with m_internChromaFormat := vvencChromaFormat.VVENC_CHROMA_420 }
  let c5 : vvenc_config :=
    if avctx.pix_fmt = AV_PIX_FMT_YUV420P then
      { c4 with m_outputBitDepth0 := 8, m_internalBitDepth0 := 8, m_inputBitDepth0 := 8 }
    else if avctx.pix_fmt = AV_PIX_FMT_YUV420P10LE then
      { c4 with m_outputBitDepth0 := 10, m_internalBitDepth0 := 10, m_inputBitDepth0 := 10 }
    else c4
  -- lines 79-84
  let c6 : vvenc_config :=
    if avctx.thread_count > 0 then { c5 with m_numThreads := avctx.thread_count }
    else { c5 with m_numThreads := -1 }
  -- lines 86-87
  let c7 : vvenc_config := { c6 with m_FrameScale := avctx.framerate.den }
  { c7 with m_TicksPerSecond := 90000 }

/-- The function `ff_vvenc_encode_init(avctx)`.  `log_level` is what `av_log_get_level()`
returns. -/
def ff_vvenc_encode_init {σ : Type} (K : Headers) (lib : VVenCLib σ) (log_level : Int)
    (avctx : AVCodecContext) : InitResult σ :=
  -- line 61
  let c0 := lib.vvenc_init_default avctx.width avctx.height avctx.framerate.num avctx.bit_rate
    avctx.global_quality vvencPresetMode.VVENC_FASTER
  -- lines 63-87
  let c8 := init_params K log_level avctx c0
  -- line 89
  let c9 := lib.vvenc_init_config_parameter c8
  -- lines 91-94
  let enc := lib.vvenc_encoder_create
  let o := lib.vvenc_encoder_open enc c9
  if o.1 ≠ 0 then
    { ret := -1, configured := c8, params := o.2.2, encoder := some o.2.1,
      yuvbuf := none, au := none }
  else
    -- lines 96-100
    let yuvbuf := lib.vvenc_YUVBuffer_alloc_buffer o.2.2.m_internChromaFormat
      o.2.2.m_SourceWidth o.2.2.m_SourceHeight
    let au := lib.vvenc_accessUnit_alloc_payload
      (2 * o.2.2.m_SourceWidth * o.2.2.m_SourceHeight + 1024)
    { ret := 0, configured := c8, params := o.2.2, encoder := some o.2.1,
      yuvbuf := some yuvbuf, au := some au }

/-- The pixel formats the codec descriptor `ff_libvvenc_encoder` declares in `.pix_fmts`
(lines 165-167), without the terminating `AV_PIX_FMT_NONE`. -/
def ff_libvvenc_encoder_pix_fmts : List AVPixelFormat :=
  [AV_PIX_FMT_YUV420P, AV_PIX_FMT_YUV420P10LE]

/-! ## A stream of calls -/

/-- The arguments of one `ff_vvenc_encode_frame` call that the host chooses. -/
structure EncodeCall where
  avctx : AVCodecContext
  avpkt : AVPacket
  frame : AVFrame

/-- The encoder state of an observed library: the state of the library itself, the number
of `vvenc_encode` invocations it has received (the frames submitted to it), and the number
of those it answered with return value 0 and a unit of payloadUsedSize > 0. -/
structure Tally (σ : Type) where
  state : σ
  frames : Nat
  units : Nat

/-- The library `lib` under observation: every function answers as `lib` does, and
`vvenc_encode` also counts its invocation and the non-empty unit it returns. -/
def tallied {σ : Type} (lib : VVenCLib σ) : VVenCLib (Tally σ) where
  vvenc_init_default := lib.vvenc_init_default
  vvenc_init_config_parameter := lib.vvenc_init_config_parameter
  vvenc_encoder_create := ⟨lib.vvenc_encoder_create, 0, 0⟩
  vvenc_encoder_open := fun s c =>
    ((lib.vvenc_encoder_open s.state c).1,
      ⟨(lib.vvenc_encoder_open s.state c).2.1, s.frames, s.units⟩,
      (lib.vvenc_encoder_open s.state c).2.2)
  vvenc_YUVBuffer_alloc_buffer := lib.vvenc_YUVBuffer_alloc_buffer
  vvenc_accessUnit_alloc_payload := lib.vvenc_accessUnit_alloc_payload
  vvenc_encode := fun s y a =>
    ((lib.vvenc_encode s.state y a).1,
      ⟨(lib.vvenc_encode s.state y a).2.1, s.frames + 1,
        s.units + (if (lib.vvenc_encode s.state y a).1 = 0
          ∧ 0 < (lib.vvenc_encode s.state y a).2.2.1.payloadUsedSize then 1 else 0)⟩,
      (lib.vvenc_encode s.state y a).2.2.1,
      (lib.vvenc_encode s.state y a).2.2.2)

/-- The private context with the observation counters dropped. -/
def VVEnCContext.untallied {σ : Type} (q : VVEnCContext (Tally σ)) : VVEnCContext σ :=
  ⟨q.params, q.encoder.state, q.yuvbuf, q.au, q.encDone⟩

/-- What the host has seen of a stream: the private context after the last call and the
number of packets the calls reported. -/
structure StreamState (σ : Type) where
  q : VVEnCContext σ
  emitted : Nat

/-- One host step: call `ff_vvenc_encode_frame` with `*got_packet_ptr` cleared, and count a
packet when the call returned 0 and left `*got_packet_ptr` at 1. -/
def stream_step {σ : Type} (K : Headers) (lib : VVenCLib σ) (s : StreamState σ)
    (c : EncodeCall) : StreamState σ :=
  { q := (ff_vvenc_encode_frame K lib c.avctx s.q c.avpkt c.frame 0).q
    emitted := s.emitted
      + (if (ff_vvenc_encode_frame K lib c.avctx s.q c.avpkt c.frame 0).ret = 0
          ∧ (ff_vvenc_encode_frame K lib c.avctx s.q c.avpkt c.frame 0).got_packet = 1
        then 1 else 0) }

/-- The calls of a stream one after the other on one adapter instance. -/
def encode_stream {σ : Type} (K : Headers) (lib : VVenCLib σ) (q : VVEnCContext σ)
    (calls : List EncodeCall) : StreamState σ :=
  calls.foldl (stream_step K lib) { q := q, emitted := 0 }

/-! ## Views used by the statements -/

/-- What `vvenc_encode` answers in line 123 of a call: its return value, the new encoder
state, the access unit it leaves in `q->au`, and the `encDone` flag. -/
def encode_answer {σ : Type} (lib : VVenCLib σ) (avctx : AVCodecContext) (q : VVEnCContext σ)
    (frame : AVFrame) : Int × σ × vvencAccessUnit × Bool :=
  lib.vvenc_encode q.encoder (submitted_yuvbuf avctx q frame) q.au

/-- The value of an `AVRational` as a rational number. -/
def AVRational.toRat (r : AVRational) : ℚ := (r.num : ℚ) / (r.den : ℚ)

/-- Rounding of a rational to the nearest integer, halves away from zero. -/
def round_nearest (x : ℚ) : Int := if x < 0 then -⌊-x + 1 / 2⌋ else ⌊x + 1 / 2⌋

/-- Whether an access unit reports that it references no prior picture: its slice type is
intra. -/
def references_no_prior_picture (au : vvencAccessUnit) : Bool :=
  decide (au.sliceType = vvencSliceType.VVENC_I_SLICE)

/-- Whether the key-frame bit of a packet's flags is set. -/
def key_flag_set (K : Headers) (p : AVPacket) : Prop := p.flags &&& K.AV_PKT_FLAG_KEY ≠ 0

instance (K : Headers) (p : AVPacket) : Decidable (key_flag_set K p) := by
  unfold key_flag_set; infer_instance

/-- What `vvenc_encoder_open` answers in line 92 of `ff_vvenc_encode_init`: its return
value, the encoder state and the configuration it leaves. -/
def open_answer {σ : Type} (K : Headers) (lib : VVenCLib σ) (log_level : Int)
    (avctx : AVCodecContext) : Int × σ × vvenc_config :=
  lib.vvenc_encoder_open lib.vvenc_encoder_create
    (lib.vvenc_init_config_parameter
      (init_params K log_level avctx
        (lib.vvenc_init_default avctx.width avctx.height avctx.framerate.num avctx.bit_rate
          avctx.global_quality vvencPresetMode.VVENC_FASTER)))

/-! ## Concrete inputs -/

/-- A buffer of zero samples. -/
def zero_samples : Nat → Int := fun _ => 0

/-- A 2x2 luma plane and two 1x1 chroma planes, all samples zero. -/
def demo_yuvbuf : vvencYUVBuffer where
  planes := fun i => if i = 0 then ⟨zero_samples, 2, 2, 2⟩ else ⟨zero_samples, 1, 1, 1⟩
  sequenceNumber := 0
  cts := 0
  ctsValid := false

/-- An access unit with an empty payload. -/
def demo_au : vvencAccessUnit where
  payload := fun _ => 0
  payloadSize := 1032
  payloadUsedSize := 0
  cts := 0
  dts := 0
  refPic := false
  rap := false
  sliceType := vvencSliceType.VVENC_B_SLICE

/-- A configuration with the 90000-tick base. -/
def demo_config : vvenc_config where
  m_SourceWidth := 2
  m_SourceHeight := 2
  m_verbosity := 0
  m_msgFnc := none
  m_internChromaFormat := vvencChromaFormat.VVENC_CHROMA_420
  m_outputBitDepth0 := 8
  m_internalBitDepth0 := 8
  m_inputBitDepth0 := 8
  m_numThreads := 0
  m_FrameScale := 1
  m_TicksPerSecond := 90000

/-- A library whose encoder state is the number of frames it has seen.  It opens without
error and answers every frame at once with a one-byte access unit that carries the
submitted `cts` as both `cts` and `dts`; the unit is flagged `refPic` on the first frame
only. -/
def echo_lib : VVenCLib Nat where
  vvenc_init_default := fun w h _ _ _ _ => { demo_config with m_SourceWidth := w, m_SourceHeight := h }
  vvenc_init_config_parameter := fun c => c
  vvenc_encoder_create := 0
  vvenc_encoder_open := fun s c => (0, s, c)
  vvenc_YUVBuffer_alloc_buffer := fun _ _ _ => demo_yuvbuf
  vvenc_accessUnit_alloc_payload := fun n => { demo_au with payloadSize := n }
  vvenc_encode := fun s y a =>
    (0, s + 1, { a with payloadUsedSize := 1, cts := y.cts, dts := y.cts, refPic := decide (s = 0) },
      false)

/-- A library that answers every frame with the given access unit. -/
def fixed_lib (au : vvencAccessUnit) : VVenCLib Nat :=
  { echo_lib with vvenc_encode := fun s _ _ => (0, s + 1, au, false) }

/-- A one-byte unit of a P slice that is not a random access point and that later pictures
use as a reference. -/
def demo_p_unit : vvencAccessUnit :=
  { demo_au with
    payloadUsedSize := 1
    refPic := true
    rap := false
    sliceType := vvencSliceType.VVENC_P_SLICE }

/-- A library that buffers: it accepts every frame and never emits a byte. -/
def silent_lib : VVenCLib Nat :=
  { echo_lib with vvenc_encode := fun s _ a => (0, s + 1, { a with payloadUsedSize := 0 }, false) }

/-- A library whose encode call fails. -/
def failing_lib : VVenCLib Nat :=
  { echo_lib with vvenc_encode := fun s _ a => (-1, s, a, false) }

/-- A host context: 2x2 pixels, 25 fps, time base 1/25, the given pixel format and thread
count. -/
def demo_avctx (fmt : AVPixelFormat) (threads : Int) : AVCodecContext where
  width := 2
  height := 2
  framerate := ⟨25, 1⟩
  bit_rate := 0
  global_quality := 32
  pix_fmt := fmt
  thread_count := threads
  time_base := ⟨1, 25⟩
  frame_number := 0

/-- A frame whose byte `k` of every plane is `200 + k` (mod 256), rows of 2 bytes, with the
given timestamp. -/
def demo_frame (pts : Int) : AVFrame where
  data := fun _ k => Fin.ofNat (200 + k)
  linesize := fun _ => 2
  pts := pts

/-- The blank packet a host hands in. -/
def blank_packet : AVPacket := ⟨0, 0, 0, 0, []⟩

/-- The private context of an opened encoder in its first call. -/
def demo_context : VVEnCContext Nat := ⟨demo_config, 0, demo_yuvbuf, demo_au, false⟩

/-- The private context of an opened encoder under observation, counters at zero. -/
def demo_observed_context : VVEnCContext (Tally Nat) :=
  ⟨demo_config, ⟨0, 0, 0⟩, demo_yuvbuf, demo_au, false⟩

/-- Two calls of a stream: frames with timestamps 0 and 1, each on a blank packet. -/
def demo_calls : List EncodeCall :=
  [⟨demo_avctx AV_PIX_FMT_YUV420P 1, blank_packet, demo_frame 0⟩,
   ⟨demo_avctx AV_PIX_FMT_YUV420P 1, blank_packet, demo_frame 1⟩]

/-! ## Lemmas -/

theorem int16_cast_byte (b : Fin 256) : int16_cast (b.val : Int) = (b.val : Int) := by
  have h := b.isLt
  unfold int16_cast
  norm_num
  omega

theorem expand_bytes_loop_apply (src : Nat → Fin 256) (r i : Nat) (dst : Nat → Int) (k : Nat) :
    expand_bytes_loop src r i dst k
      = if i ≤ k ∧ k < i + r then int16_cast ((src k).val : Int) else dst k := by
  induction r generalizing i dst with
  | zero =>
    have e : ¬ (i ≤ k ∧ k < i + 0) := by omega
    rw [expand_bytes_loop, if_neg e]
  | succ r ih =>
    rw [expand_bytes_loop, ih]
    by_cases hk : k = i
    · subst hk
      simp
    · rw [Function.update_noteq hk]
      have e : (i + 1 ≤ k ∧ k < i + 1 + r) ↔ (i ≤ k ∧ k < i + (r + 1)) := by omega
      simp only [e]

theorem ff_vvenc_expand_bytes_apply (src : Nat → Fin 256) (dst : Nat → Int) (n : Int) (k : Nat) :
    ff_vvenc_expand_bytes src dst n k = if (k : Int) < n then ((src k).val : Int) else dst k := by
  unfold ff_vvenc_expand_bytes
  rw [expand_bytes_loop_apply, int16_cast_byte]
  have e : (0 ≤ k ∧ k < 0 + n.toNat) ↔ (k : Int) < n := by omega
  simp only [e]

theorem copy_planes_8bit (avctx : AVCodecContext) (frame : AVFrame) (y : vvencYUVBuffer)
    (h : avctx.pix_fmt = AV_PIX_FMT_YUV420P) (i : Nat) (hi : i < 3) :
    ([0, 1, 2].foldl (copy_plane avctx frame) y).planes i
      = { y.planes i with
          ptr := ff_vvenc_expand_bytes (frame.data i) (y.planes i).ptr
            ((y.planes i).height * frame.linesize i) } := by
  have h3 : i = 0 ∨ i = 1 ∨ i = 2 := by omega
  rcases h3 with rfl | rfl | rfl <;> simp [copy_plane, h, Function.update]

theorem rescale_floor (N c : Int) (hc : 0 < c) :
    (N + c / 2) / c = ⌊(N : ℚ) / (c : ℚ) + 1 / 2⌋ := by
  symm
  rw [Int.floor_eq_iff]
  have h1 : (N + c / 2) / c * c ≤ N + c / 2 := Int.ediv_mul_le _ (ne_of_gt hc)
  have h2 : N + c / 2 < ((N + c / 2) / c + 1) * c := Int.lt_ediv_add_one_mul_self _ hc
  have h3 : c / 2 * 2 ≤ c := Int.ediv_mul_le _ (by norm_num)
  have h4 : c < (c / 2 + 1) * 2 := Int.lt_ediv_add_one_mul_self _ (by norm_num)
  generalize (N + c / 2) / c = z at h1 h2 ⊢
  generalize c / 2 = m at h1 h2 h3 h4
  have hcq : (0 : ℚ) < (c : ℚ) := by exact_mod_cast hc
  have e : (N : ℚ) / (c : ℚ) + 1 / 2 = (2 * N + c) / (2 * c) := by
    field_simp
    ring
  have h1q : (z : ℚ) * c ≤ N + m := by exact_mod_cast h1
  have h2q : (N : ℚ) + m + 1 ≤ (z + 1) * c := by exact_mod_cast Int.add_one_le_iff.mpr h2
  have h3q : (m : ℚ) * 2 ≤ c := by exact_mod_cast h3
  have h4q : (c : ℚ) < (m + 1) * 2 := by exact_mod_cast h4
  rw [e]
  constructor
  · rw [le_div_iff₀ (by positivity)]
    nlinarith
  · rw [div_lt_iff₀ (by positivity)]
    nlinarith

theorem round_nearest_of_nonneg (x : ℚ) (hx : 0 ≤ x) : round_nearest x = ⌊x + 1 / 2⌋ := by
  unfold round_nearest
  rw [if_neg (not_lt.mpr hx)]

theorem round_nearest_of_nonpos (x : ℚ) (hx : x ≤ 0) : round_nearest x = -⌊-x + 1 / 2⌋ := by
  unfold round_nearest
  rcases lt_or_eq_of_le hx with h | h
  · rw [if_pos h]
  · subst h
    norm_num

theorem round_nearest_near (x : ℚ) : |(round_nearest x : ℚ) - x| ≤ 1 / 2 := by
  unfold round_nearest
  rw [abs_le]
  split_ifs with h
  · have a := Int.floor_le (-x + 1 / 2)
    have b := Int.lt_floor_add_one (-x + 1 / 2)
    push_cast
    constructor <;> linarith
  · have a := Int.floor_le (x + 1 / 2)
    have b := Int.lt_floor_add_one (x + 1 / 2)
    constructor <;> linarith

theorem av_rescale_q_eq_round (a : Int) (bq cq : AVRational) (h1 : 0 ≤ bq.num) (h2 : 0 < bq.den)
    (h3 : 0 < cq.num) (h4 : 0 < cq.den) :
    av_rescale_q a bq cq = round_nearest ((a : ℚ) * bq.toRat / cq.toRat) := by
  have hc : 0 < cq.num * bq.den := Int.mul_pos h3 h2
  have hb : 0 ≤ bq.num * cq.den := Int.mul_nonneg h1 (le_of_lt h4)
  have hcq : (0 : ℚ) < ((cq.num * bq.den : Int) : ℚ) := by exact_mod_cast hc
  have hbq : (0 : ℚ) ≤ ((bq.num * cq.den : Int) : ℚ) := by exact_mod_cast hb
  have h2q : (bq.den : ℚ) ≠ 0 := by exact_mod_cast (ne_of_gt h2)
  have h3q : (cq.num : ℚ) ≠ 0 := by exact_mod_cast (ne_of_gt h3)
  have h4q : (cq.den : ℚ) ≠ 0 := by exact_mod_cast (ne_of_gt h4)
  have ex : (a : ℚ) * bq.toRat / cq.toRat
      = (a : ℚ) * ((bq.num * cq.den : Int) : ℚ) / ((cq.num * bq.den : Int) : ℚ) := by
    unfold AVRational.toRat
    push_cast
    field_simp
    ring
  rw [ex]
  unfold av_rescale_q
  simp only []
  by_cases ha : a < 0
  · rw [if_pos ha, rescale_floor _ _ hc, round_nearest_of_nonpos]
    · push_cast
      congr 3
      ring
    · have haq : (a : ℚ) ≤ 0 := by exact_mod_cast (le_of_lt ha)
      exact div_nonpos_of_nonpos_of_nonneg (mul_nonpos_of_nonpos_of_nonneg haq hbq) (le_of_lt hcq)
  · rw [if_neg ha, rescale_floor _ _ hc, round_nearest_of_nonneg]
    · push_cast
      rfl
    · have haq : (0 : ℚ) ≤ (a : ℚ) := by exact_mod_cast (not_lt.mp ha)
      exact div_nonneg (mul_nonneg haq hbq) (le_of_lt hcq)

/-- The rescale of lines 120, 131 and 132 with the 90000-tick base: the value divided by
`tb × 90000`, rounded to the nearest integer. -/
theorem av_rescale_q_ticks (x : Int) (tb : AVRational) (hn : 0 < tb.num) (hd : 0 < tb.den) :
    av_rescale_q x (av_make_q 1 90000) tb = round_nearest ((x : ℚ) / (tb.toRat * 90000)) := by
  rw [av_rescale_q_eq_round x (av_make_q 1 90000) tb (by decide) (by decide) hn hd]
  congr 1
  have hnq : (tb.num : ℚ) ≠ 0 := by exact_mod_cast (ne_of_gt hn)
  have hdq : (tb.den : ℚ) ≠ 0 := by exact_mod_cast (ne_of_gt hd)
  unfold AVRational.toRat av_make_q
  push_cast
  field_simp
  left
  ring

theorem encode_frame_of_packet {σ : Type} (K : Headers) (lib : VVenCLib σ)
    (avctx : AVCodecContext) (q : VVEnCContext σ) (avpkt : AVPacket) (frame : AVFrame)
    (got_packet : Int) (hok : (encode_answer lib avctx q frame).1 = 0)
    (hsz : 0 < (encode_answer lib avctx q frame).2.2.1.payloadUsedSize) :
    ff_vvenc_encode_frame K lib avctx q avpkt frame got_packet
      = { ret := 0
          q := { q with
            yuvbuf := submitted_yuvbuf avctx q frame
            encoder := (encode_answer lib avctx q frame).2.1
            au := (encode_answer lib avctx q frame).2.2.1
            encDone := (encode_answer lib avctx q frame).2.2.2 }
          avpkt :=
            { pts := av_rescale_q (encode_answer lib avctx q frame).2.2.1.cts
                (av_make_q 1 q.params.m_TicksPerSecond) avctx.time_base
              dts := av_rescale_q (encode_answer lib avctx q frame).2.2.1.dts
                (av_make_q 1 q.params.m_TicksPerSecond) avctx.time_base
              flags := if (encode_answer lib avctx q frame).2.2.1.refPic then K.AV_PKT_FLAG_KEY
                else avpkt.flags
              size := (encode_answer lib avctx q frame).2.2.1.payloadUsedSize
              data := (List.range (encode_answer lib avctx q frame).2.2.1.payloadUsedSize.toNat).map
                (encode_answer lib avctx q frame).2.2.1.payload }
          got_packet := 1 } := by
  unfold encode_answer at hok hsz
  unfold ff_vvenc_encode_frame encode_answer
  simp only [hok, hsz, ne_eq, not_true_eq_false, if_false, gt_iff_lt, if_true]
  cases hr : (lib.vvenc_encode q.encoder (submitted_yuvbuf avctx q frame) q.au).2.2.1.refPic <;>
    simp [ff_get_encode_buffer]

theorem encode_frame_of_empty {σ : Type} (K : Headers) (lib : VVenCLib σ)
    (avctx : AVCodecContext) (q : VVEnCContext σ) (avpkt : AVPacket) (frame : AVFrame)
    (got_packet : Int) (hok : (encode_answer lib avctx q frame).1 = 0)
    (hsz : ¬ 0 < (encode_answer lib avctx q frame).2.2.1.payloadUsedSize) :
    ff_vvenc_encode_frame K lib avctx q avpkt frame got_packet
      = { ret := 0
          q := { q with
            yuvbuf := submitted_yuvbuf avctx q frame
            encoder := (encode_answer lib avctx q frame).2.1
            au := (encode_answer lib avctx q frame).2.2.1
            encDone := (encode_answer lib avctx q frame).2.2.2 }
          avpkt := avpkt
          got_packet := got_packet } := by
  unfold encode_answer at hok hsz
  unfold ff_vvenc_encode_frame encode_answer
  simp only [hok, hsz, ne_eq, not_true_eq_false, if_false, gt_iff_lt]

theorem encode_frame_of_failure {σ : Type} (K : Headers) (lib : VVenCLib σ)
    (avctx : AVCodecContext) (q : VVEnCContext σ) (avpkt : AVPacket) (frame : AVFrame)
    (got_packet : Int) (hfail : (encode_answer lib avctx q frame).1 ≠ 0) :
    ff_vvenc_encode_frame K lib avctx q avpkt frame got_packet
      = { ret := -1
          q := { q with
            yuvbuf := submitted_yuvbuf avctx q frame
            encoder := (encode_answer lib avctx q frame).2.1
            au := (encode_answer lib avctx q frame).2.2.1
            encDone := (encode_answer lib avctx q frame).2.2.2 }
          avpkt := avpkt
          got_packet := got_packet } := by
  unfold encode_answer at hfail
  unfold ff_vvenc_encode_frame encode_answer
  simp only [hfail, ne_eq, not_false_eq_true, if_true]

/-! ## The claims -/

/-- C1: for 8-bit planar input (AV_PIX_FMT_YUV420P), for every plane i in 0, 1, 2 and every
index k below planes[i].height * linesize[i], the 16-bit sample k of plane i of the input
sample buffer after ff_vvenc_encode_frame's copy loop is the numeric value of the source byte
frame->data[i][k], a value in 0..255, and samples at index k at or beyond that bound are
not written.  Likewise ff_vvenc_expand_bytes(src, dst, n) sets dst[j] to the value of src[j]
for every j < n and leaves dst[j] alone for j >= n. -/
theorem encode_frame_expands_bytes {σ : Type} (K : Headers) (lib : VVenCLib σ)
    (avctx : AVCodecContext) (q : VVEnCContext σ) (avpkt : AVPacket) (frame : AVFrame)
    (got_packet : Int) (hfmt : avctx.pix_fmt = AV_PIX_FMT_YUV420P) :
    (∀ i : Nat, i < 3 → ∀ k : Nat,
      ((k : Int) < (q.yuvbuf.planes i).height * frame.linesize i →
        ((ff_vvenc_encode_frame K lib avctx q avpkt frame got_packet).q.yuvbuf.planes i).ptr k
            = ((frame.data i k).val : Int)
          ∧ 0 ≤ ((ff_vvenc_encode_frame K lib avctx q avpkt frame got_packet).q.yuvbuf.planes i).ptr k
          ∧ ((ff_vvenc_encode_frame K lib avctx q avpkt frame got_packet).q.yuvbuf.planes i).ptr k
            ≤ 255)
      ∧ ((q.yuvbuf.planes i).height * frame.linesize i ≤ (k : Int) →
        ((ff_vvenc_encode_frame K lib avctx q avpkt frame got_packet).q.yuvbuf.planes i).ptr k
            = (q.yuvbuf.planes i).ptr k))
    ∧ (∀ (src : Nat → Fin 256) (dst : Nat → Int) (n : Int) (j : Nat),
        ((j : Int) < n → ff_vvenc_expand_bytes src dst n j = ((src j).val : Int))
        ∧ (n ≤ (j : Int) → ff_vvenc_expand_bytes src dst n j = dst j)) := by
  have hq : ∀ i : Nat, i < 3 →
      ((ff_vvenc_encode_frame K lib avctx q avpkt frame got_packet).q.yuvbuf.planes i).ptr
        = ff_vvenc_expand_bytes (frame.data i) (q.yuvbuf.planes i).ptr
            ((q.yuvbuf.planes i).height * frame.linesize i) := by
    intro i hi
    have e : (ff_vvenc_encode_frame K lib avctx q avpkt frame got_packet).q.yuvbuf
        = submitted_yuvbuf avctx q frame := by
      unfold ff_vvenc_encode_frame
      simp only []
      split_ifs <;> rfl
    rw [e]
    unfold submitted_yuvbuf
    simp only []
    rw [copy_planes_8bit avctx frame q.yuvbuf hfmt i hi]
  refine ⟨?_, ?_⟩
  · intro i hi k
    rw [hq i hi, ff_vvenc_expand_bytes_apply]
    have hb := (frame.data i k).isLt
    constructor
    · intro hk
      rw [if_pos hk]
      omega
    · intro hk
      rw [if_neg (not_lt.mpr hk)]
  · intro src dst n j
    rw [ff_vvenc_expand_bytes_apply]
    constructor
    · intro hj
      rw [if_pos hj]
    · intro hj
      rw [if_neg (not_lt.mpr hj)]

/-- C1 at a concrete frame: an 8-bit frame with bytes 200, 201, ... in every plane. -/
theorem encode_frame_expands_bytes_witness :
    (demo_avctx AV_PIX_FMT_YUV420P 1).pix_fmt = AV_PIX_FMT_YUV420P
    ∧ ((ff_vvenc_encode_frame stdHeaders echo_lib (demo_avctx AV_PIX_FMT_YUV420P 1) demo_context
          blank_packet (demo_frame 0) 0).q.yuvbuf.planes 0).ptr 3 = 203
    ∧ ((ff_vvenc_encode_frame stdHeaders echo_lib (demo_avctx AV_PIX_FMT_YUV420P 1) demo_context
          blank_packet (demo_frame 0) 0).q.yuvbuf.planes 0).ptr 4 = 0 := by
  have h := encode_frame_expands_bytes stdHeaders echo_lib (demo_avctx AV_PIX_FMT_YUV420P 1)
    demo_context blank_packet (demo_frame 0) 0 rfl
  refine ⟨rfl, ?_, ?_⟩
  · have h3 := ((h.1 0 (by decide) 3).1 (by decide)).1
    rw [h3]
    decide
  · have h4 := (h.1 0 (by decide) 4).2 (by decide)
    rw [h4]
    rfl

/-- C3: when the library call succeeds and the access unit has payloadUsedSize > 0, then for
every positive host time base tb (and the 90000-tick configuration) the packet's dts is the
unit's dts divided by tb * 90000 and rounded to the nearest integer, and its pts is the
unit's cts rescaled the same way; both are within one half of the exact quotient. -/
theorem encode_frame_packet_timestamps {σ : Type} (K : Headers) (lib : VVenCLib σ)
    (avctx : AVCodecContext) (q : VVEnCContext σ) (avpkt : AVPacket) (frame : AVFrame)
    (got_packet : Int) (hn : 0 < avctx.time_base.num) (hd : 0 < avctx.time_base.den)
    (hticks : q.params.m_TicksPerSecond = 90000)
    (hok : (encode_answer lib avctx q frame).1 = 0)
    (hsz : 0 < (encode_answer lib avctx q frame).2.2.1.payloadUsedSize) :
    (ff_vvenc_encode_frame K lib avctx q avpkt frame got_packet).avpkt.dts
        = round_nearest (((encode_answer lib avctx q frame).2.2.1.dts : ℚ)
            / (avctx.time_base.toRat * 90000))
    ∧ (ff_vvenc_encode_frame K lib avctx q avpkt frame got_packet).avpkt.pts
        = round_nearest (((encode_answer lib avctx q frame).2.2.1.cts : ℚ)
            / (avctx.time_base.toRat * 90000))
    ∧ |((ff_vvenc_encode_frame K lib avctx q avpkt frame got_packet).avpkt.dts : ℚ)
        - ((encode_answer lib avctx q frame).2.2.1.dts : ℚ) / (avctx.time_base.toRat * 90000)|
        ≤ 1 / 2
    ∧ |((ff_vvenc_encode_frame K lib avctx q avpkt frame got_packet).avpkt.pts : ℚ)
        - ((encode_answer lib avctx q frame).2.2.1.cts : ℚ) / (avctx.time_base.toRat * 90000)|
        ≤ 1 / 2 := by
  rw [encode_frame_of_packet K lib avctx q avpkt frame got_packet hok hsz]
  simp only [hticks]
  rw [av_rescale_q_ticks _ _ hn hd, av_rescale_q_ticks _ _ hn hd]
  exact ⟨rfl, rfl, round_nearest_near _, round_nearest_near _⟩

/-- C3 at a concrete call: time base 1/25 and a one-byte unit with dts = 3600 and cts = 7200
ticks; the packet's dts and pts are those values divided by 3600 and rounded. -/
theorem encode_frame_packet_timestamps_witness :
    (ff_vvenc_encode_frame stdHeaders
        (fixed_lib { demo_au with payloadUsedSize := 1, dts := 3600, cts := 7200 })
        (demo_avctx AV_PIX_FMT_YUV420P 1) demo_context blank_packet (demo_frame 2) 0).avpkt.dts
      = round_nearest ((3600 : ℚ) / ((demo_avctx AV_PIX_FMT_YUV420P 1).time_base.toRat * 90000))
    ∧ (ff_vvenc_encode_frame stdHeaders
        (fixed_lib { demo_au with payloadUsedSize := 1, dts := 3600, cts := 7200 })
        (demo_avctx AV_PIX_FMT_YUV420P 1) demo_context blank_packet (demo_frame 2) 0).avpkt.pts
      = round_nearest ((7200 : ℚ) / ((demo_avctx AV_PIX_FMT_YUV420P 1).time_base.toRat * 90000)) :=
  have h := encode_frame_packet_timestamps stdHeaders
    (fixed_lib { demo_au with payloadUsedSize := 1, dts := 3600, cts := 7200 })
    (demo_avctx AV_PIX_FMT_YUV420P 1) demo_context blank_packet (demo_frame 2) 0
    (by decide) (by decide) rfl rfl (by decide)
  ⟨h.1, h.2.1⟩

/-- Lines 134-136: for a call that produces a packet on a packet whose key-frame bit is
clear on entry, AV_PKT_FLAG_KEY is set in avpkt->flags afterwards if and only if the access
unit's refPic field is set; no other field of the unit is consulted. -/
theorem encode_frame_key_flag_iff_refPic {σ : Type} (K : Headers) (lib : VVenCLib σ)
    (avctx : AVCodecContext) (q : VVEnCContext σ) (avpkt : AVPacket) (frame : AVFrame)
    (got_packet : Int) (hkey : K.AV_PKT_FLAG_KEY ≠ 0) (hentry : ¬ key_flag_set K avpkt)
    (hok : (encode_answer lib avctx q frame).1 = 0)
    (hsz : 0 < (encode_answer lib avctx q frame).2.2.1.payloadUsedSize) :
    key_flag_set K (ff_vvenc_encode_frame K lib avctx q avpkt frame got_packet).avpkt
      ↔ (encode_answer lib avctx q frame).2.2.1.refPic = true := by
  rw [encode_frame_of_packet K lib avctx q avpkt frame got_packet hok hsz]
  unfold key_flag_set at hentry ⊢
  cases hr : (encode_answer lib avctx q frame).2.2.1.refPic
  · simpa using hentry
  · simpa using hkey

/-- C5 at a failing input: the library answers with a one-byte unit of a P slice, which
references a prior picture and is no random access point, but which later pictures use as
a reference (refPic set).  The call produces a packet, and on the blank packet, whose
key-frame bit is clear, it sets AV_PKT_FLAG_KEY; the claim asks for the bit to stay clear. -/
theorem encode_frame_key_flag_on_inter_unit :
    references_no_prior_picture demo_p_unit = false
    ∧ demo_p_unit.rap = false
    ∧ ¬ key_flag_set stdHeaders blank_packet
    ∧ (ff_vvenc_encode_frame stdHeaders (fixed_lib demo_p_unit)
        (demo_avctx AV_PIX_FMT_YUV420P 1) demo_context blank_packet (demo_frame 1) 0).ret = 0
    ∧ (ff_vvenc_encode_frame stdHeaders (fixed_lib demo_p_unit)
        (demo_avctx AV_PIX_FMT_YUV420P 1) demo_context blank_packet (demo_frame 1) 0).got_packet
        = 1
    ∧ (ff_vvenc_encode_frame stdHeaders (fixed_lib demo_p_unit)
        (demo_avctx AV_PIX_FMT_YUV420P 1) demo_context blank_packet (demo_frame 1) 0).avpkt.flags
        = stdHeaders.AV_PKT_FLAG_KEY
    ∧ key_flag_set stdHeaders (ff_vvenc_encode_frame stdHeaders (fixed_lib demo_p_unit)
        (demo_avctx AV_PIX_FMT_YUV420P 1) demo_context blank_packet (demo_frame 1) 0).avpkt := by
  refine ⟨by decide, by decide, by decide, by decide, by decide, by decide, by decide⟩

/-- C7: ff_vvenc_encode_frame returns an error (-1) if and only if the library's encode call
returns non-zero; when the library call succeeds it returns 0 and, the host having cleared
got_packet, got_packet is 1 afterwards if and only if the unit's payloadUsedSize is greater
than zero; a unit of zero bytes gives 0 with got_packet and the packet left as they were. -/
theorem encode_frame_return_value {σ : Type} (K : Headers) (lib : VVenCLib σ)
    (avctx : AVCodecContext) (q : VVEnCContext σ) (avpkt : AVPacket) (frame : AVFrame)
    (got_packet : Int) (hgot : got_packet ≠ 1) :
    ((ff_vvenc_encode_frame K lib avctx q avpkt frame got_packet).ret = -1
        ↔ (encode_answer lib avctx q frame).1 ≠ 0)
    ∧ ((ff_vvenc_encode_frame K lib avctx q avpkt frame got_packet).ret ≠ 0
        ↔ (encode_answer lib avctx q frame).1 ≠ 0)
    ∧ ((encode_answer lib avctx q frame).1 = 0 →
        (ff_vvenc_encode_frame K lib avctx q avpkt frame got_packet).ret = 0
        ∧ ((ff_vvenc_encode_frame K lib avctx q avpkt frame got_packet).got_packet = 1
            ↔ 0 < (encode_answer lib avctx q frame).2.2.1.payloadUsedSize))
    ∧ ((encode_answer lib avctx q frame).1 = 0 →
        ¬ 0 < (encode_answer lib avctx q frame).2.2.1.payloadUsedSize →
        (ff_vvenc_encode_frame K lib avctx q avpkt frame got_packet).ret = 0
        ∧ (ff_vvenc_encode_frame K lib avctx q avpkt frame got_packet).got_packet = got_packet
        ∧ (ff_vvenc_encode_frame K lib avctx q avpkt frame got_packet).avpkt = avpkt) := by
  by_cases hok : (encode_answer lib avctx q frame).1 = 0
  · by_cases hsz : 0 < (encode_answer lib avctx q frame).2.2.1.payloadUsedSize
    · rw [encode_frame_of_packet K lib avctx q avpkt frame got_packet hok hsz]
      simp [hok, hsz]
    · rw [encode_frame_of_empty K lib avctx q avpkt frame got_packet hok hsz]
      simp [hok, hsz, hgot]
  · rw [encode_frame_of_failure K lib avctx q avpkt frame got_packet hok]
    simp [hok]

/-- C7 at two concrete calls: a library that buffers the frame and emits zero bytes gives
return value 0, no packet, and the blank packet untouched; a library whose encode call
fails gives return value -1. -/
theorem encode_frame_return_value_witness :
    ((ff_vvenc_encode_frame stdHeaders silent_lib (demo_avctx AV_PIX_FMT_YUV420P 1) demo_context
        blank_packet (demo_frame 0) 0).ret = 0
      ∧ (ff_vvenc_encode_frame stdHeaders silent_lib (demo_avctx AV_PIX_FMT_YUV420P 1)
        demo_context blank_packet (demo_frame 0) 0).got_packet = 0
      ∧ (ff_vvenc_encode_frame stdHeaders silent_lib (demo_avctx AV_PIX_FMT_YUV420P 1)
        demo_context blank_packet (demo_frame 0) 0).avpkt = blank_packet)
    ∧ (ff_vvenc_encode_frame stdHeaders failing_lib (demo_avctx AV_PIX_FMT_YUV420P 1)
        demo_context blank_packet (demo_frame 0) 0).ret = -1 :=
  ⟨(encode_frame_return_value stdHeaders silent_lib (demo_avctx AV_PIX_FMT_YUV420P 1)
      demo_context blank_packet (demo_frame 0) 0 (by decide)).2.2.2 rfl (by decide),
   (encode_frame_return_value stdHeaders failing_lib (demo_avctx AV_PIX_FMT_YUV420P 1)
      demo_context blank_packet (demo_frame 0) 0 (by decide)).1.mpr (by decide)⟩

theorem tallied_encode_answer {σ : Type} (lib : VVenCLib σ) (avctx : AVCodecContext)
    (q : VVEnCContext (Tally σ)) (frame : AVFrame) :
    (encode_answer (tallied lib) avctx q frame).1 = (encode_answer lib avctx q.untallied frame).1
    ∧ (encode_answer (tallied lib) avctx q frame).2.1.state
        = (encode_answer lib avctx q.untallied frame).2.1
    ∧ (encode_answer (tallied lib) avctx q frame).2.2
        = (encode_answer lib avctx q.untallied frame).2.2
    ∧ (encode_answer (tallied lib) avctx q frame).2.1.frames = q.encoder.frames + 1
    ∧ (encode_answer (tallied lib) avctx q frame).2.1.units
        = q.encoder.units
          + (if (encode_answer (tallied lib) avctx q frame).1 = 0
              ∧ 0 < (encode_answer (tallied lib) avctx q frame).2.2.1.payloadUsedSize
            then 1 else 0) :=
  ⟨rfl, rfl, rfl, rfl, rfl⟩

/-- Observation does not change what the adapter does: with the observed library a call
returns the same value, packet and flag, and leaves the same context, as with the library
itself. -/
theorem tallied_encode_frame {σ : Type} (K : Headers) (lib : VVenCLib σ) (avctx : AVCodecContext)
    (q : VVEnCContext (Tally σ)) (avpkt : AVPacket) (frame : AVFrame) (got_packet : Int) :
    (ff_vvenc_encode_frame K (tallied lib) avctx q avpkt frame got_packet).ret
        = (ff_vvenc_encode_frame K lib avctx q.untallied avpkt frame got_packet).ret
    ∧ (ff_vvenc_encode_frame K (tallied lib) avctx q avpkt frame got_packet).avpkt
        = (ff_vvenc_encode_frame K lib avctx q.untallied avpkt frame got_packet).avpkt
    ∧ (ff_vvenc_encode_frame K (tallied lib) avctx q avpkt frame got_packet).got_packet
        = (ff_vvenc_encode_frame K lib avctx q.untallied avpkt frame got_packet).got_packet
    ∧ (ff_vvenc_encode_frame K (tallied lib) avctx q avpkt frame got_packet).q.untallied
        = (ff_vvenc_encode_frame K lib avctx q.untallied avpkt frame got_packet).q := by
  obtain ⟨t1, _, t3, _, _⟩ := tallied_encode_answer lib avctx q frame
  by_cases hok : (encode_answer lib avctx q.untallied frame).1 = 0
  · by_cases hsz : 0 < (encode_answer lib avctx q.untallied frame).2.2.1.payloadUsedSize
    · rw [encode_frame_of_packet K lib avctx q.untallied avpkt frame got_packet hok hsz,
        encode_frame_of_packet K (tallied lib) avctx q avpkt frame got_packet
          (t1.trans hok) (by rw [t3]; exact hsz)]
      exact ⟨rfl, rfl, rfl, rfl⟩
    · rw [encode_frame_of_empty K lib avctx q.untallied avpkt frame got_packet hok hsz,
        encode_frame_of_empty K (tallied lib) avctx q avpkt frame got_packet
          (t1.trans hok) (by rw [t3]; exact hsz)]
      exact ⟨rfl, rfl, rfl, rfl⟩
  · rw [encode_frame_of_failure K lib avctx q.untallied avpkt frame got_packet hok,
      encode_frame_of_failure K (tallied lib) avctx q avpkt frame got_packet
        (by rw [t1]; exact hok)]
    exact ⟨rfl, rfl, rfl, rfl⟩

theorem tallied_stream_step {σ : Type} (K : Headers) (lib : VVenCLib σ)
    (s : StreamState (Tally σ)) (c : EncodeCall) :
    (stream_step K (tallied lib) s c).q.encoder.frames = s.q.encoder.frames + 1
    ∧ (stream_step K (tallied lib) s c).emitted + s.q.encoder.units
        = s.emitted + (stream_step K (tallied lib) s c).q.encoder.units
    ∧ ((stream_step K (tallied lib) s c).emitted = s.emitted + 1
        ↔ (encode_answer lib c.avctx s.q.untallied c.frame).1 = 0
          ∧ 0 < (encode_answer lib c.avctx s.q.untallied c.frame).2.2.1.payloadUsedSize)
    ∧ (stream_step K (tallied lib) s c).emitted ≤ s.emitted + 1 := by
  obtain ⟨t1, _, t3, t4, t5⟩ := tallied_encode_answer lib c.avctx s.q c.frame
  rw [← t1, ← t3]
  unfold stream_step
  simp only []
  by_cases hok : (encode_answer (tallied lib) c.avctx s.q c.frame).1 = 0
  · by_cases hsz : 0 < (encode_answer (tallied lib) c.avctx s.q c.frame).2.2.1.payloadUsedSize
    · rw [encode_frame_of_packet K (tallied lib) c.avctx s.q c.avpkt c.frame 0 hok hsz]
      simp only [t4, t5, hok, hsz]
      simp
      omega
    · rw [encode_frame_of_empty K (tallied lib) c.avctx s.q c.avpkt c.frame 0 hok hsz]
      simp only [t4, t5, hok, hsz]
      simp
  · rw [encode_frame_of_failure K (tallied lib) c.avctx s.q c.avpkt c.frame 0 hok]
    simp only [t4, t5, hok]
    simp

theorem tallied_stream_totals {σ : Type} (K : Headers) (lib : VVenCLib σ)
    (calls : List EncodeCall) (s : StreamState (Tally σ)) :
    (calls.foldl (stream_step K (tallied lib)) s).q.encoder.frames
        = s.q.encoder.frames + calls.length
    ∧ (calls.foldl (stream_step K (tallied lib)) s).emitted + s.q.encoder.units
        = s.emitted + (calls.foldl (stream_step K (tallied lib)) s).q.encoder.units
    ∧ (calls.foldl (stream_step K (tallied lib)) s).emitted ≤ s.emitted + calls.length := by
  induction calls generalizing s with
  | nil => simp
  | cons c cs ih =>
    rw [List.foldl_cons, List.length_cons]
    obtain ⟨h1, h2, h3⟩ := ih (stream_step K (tallied lib) s c)
    obtain ⟨e1, e2, _, e4⟩ := tallied_stream_step K lib s c
    refine ⟨by omega, by omega, by omega⟩

/-- C10: for every sequence of ff_vvenc_encode_frame calls on one adapter instance and every
behaviour of the encoder library, each call submits exactly one frame to the library (one
vvenc_encode invocation, counted by the library) and reports at most one packet, and
reports one exactly when the library answered that frame with return value 0 and a unit of
payloadUsedSize > 0.  So over the stream the number of frames submitted is the number of
calls, the number of packets reported is the number of non-empty units the library returned,
and the packets reported never exceed the frames submitted. -/
theorem encode_stream_packets_le_frames {σ : Type} (K : Headers) (lib : VVenCLib σ)
    (q : VVEnCContext (Tally σ)) (calls : List EncodeCall) :
    (encode_stream K (tallied lib) q calls).q.encoder.frames
        = q.encoder.frames + calls.length
    ∧ (encode_stream K (tallied lib) q calls).emitted + q.encoder.units
        = (encode_stream K (tallied lib) q calls).q.encoder.units
    ∧ (encode_stream K (tallied lib) q calls).emitted + q.encoder.frames
        ≤ (encode_stream K (tallied lib) q calls).q.encoder.frames
    ∧ (∀ (s : StreamState (Tally σ)) (c : EncodeCall),
        (stream_step K (tallied lib) s c).q.encoder.frames = s.q.encoder.frames + 1
        ∧ (stream_step K (tallied lib) s c).emitted ≤ s.emitted + 1
        ∧ ((stream_step K (tallied lib) s c).emitted = s.emitted + 1
            ↔ (encode_answer lib c.avctx s.q.untallied c.frame).1 = 0
              ∧ 0 < (encode_answer lib c.avctx s.q.untallied c.frame).2.2.1.payloadUsedSize)) := by
  obtain ⟨h1, h2, h3⟩ := tallied_stream_totals K lib calls { q := q, emitted := 0 }
  simp only [Nat.zero_add] at h1 h2 h3
  unfold encode_stream
  refine ⟨h1, h2, by omega, ?_⟩
  intro s c
  obtain ⟨e1, _, e3, e4⟩ := tallied_stream_step K lib s c
  exact ⟨e1, e4, e3⟩

/-- Two calls on a library that buffers every frame, and two on one that answers every
frame with a unit: two frames submitted each time, no packet and two packets. -/
theorem encode_stream_two_calls :
    (encode_stream stdHeaders (tallied silent_lib) demo_observed_context demo_calls).emitted = 0
    ∧ (encode_stream stdHeaders (tallied silent_lib) demo_observed_context
        demo_calls).q.encoder.frames = 2
    ∧ (encode_stream stdHeaders (tallied echo_lib) demo_observed_context demo_calls).emitted = 2
    ∧ (encode_stream stdHeaders (tallied echo_lib) demo_observed_context
        demo_calls).q.encoder.frames = 2 := by
  refine ⟨by decide, by decide, by decide, by decide⟩

theorem init_configured {σ : Type} (K : Headers) (lib : VVenCLib σ) (log_level : Int)
    (avctx : AVCodecContext) :
    (ff_vvenc_encode_init K lib log_level avctx).configured
      = init_params K log_level avctx
          (lib.vvenc_init_default avctx.width avctx.height avctx.framerate.num avctx.bit_rate
            avctx.global_quality vvencPresetMode.VVENC_FASTER) := by
  unfold ff_vvenc_encode_init
  simp only []
  split_ifs <;> rfl

theorem init_m_verbosity {σ : Type} (K : Headers) (lib : VVenCLib σ) (log_level : Int)
    (avctx : AVCodecContext) :
    (ff_vvenc_encode_init K lib log_level avctx).configured.m_verbosity
      = if log_level ≥ K.AV_LOG_DEBUG then K.VVENC_DETAILS
        else if log_level ≥ K.AV_LOG_VERBOSE then K.VVENC_INFO
        else if log_level ≥ K.AV_LOG_INFO then K.VVENC_WARNING
        else K.VVENC_SILENT := by
  rw [init_configured]
  unfold init_params
  simp only []
  split_ifs <;> rfl

theorem init_m_numThreads {σ : Type} (K : Headers) (lib : VVenCLib σ) (log_level : Int)
    (avctx : AVCodecContext) :
    (ff_vvenc_encode_init K lib log_level avctx).configured.m_numThreads
      = if avctx.thread_count > 0 then avctx.thread_count else -1 := by
  rw [init_configured]
  unfold init_params
  simp only []
  split_ifs <;> rfl

/-- C9: for every host log level L (with the header constants ordered as in the headers),
the verbosity ff_vvenc_encode_init stores is VVENC_SILENT if and only if L < AV_LOG_INFO and
VVENC_DETAILS if and only if L >= AV_LOG_DEBUG; it is VVENC_WARNING for
AV_LOG_INFO <= L < AV_LOG_VERBOSE and VVENC_INFO for AV_LOG_VERBOSE <= L < AV_LOG_DEBUG; and
the stored verbosity is monotone non-decreasing in L. -/
theorem init_verbosity_mapping {σ : Type} (K : Headers) (lib : VVenCLib σ)
    (avctx : AVCodecContext) (L : Int)
    (h1 : K.AV_LOG_INFO ≤ K.AV_LOG_VERBOSE) (h2 : K.AV_LOG_VERBOSE ≤ K.AV_LOG_DEBUG)
    (h3 : K.VVENC_SILENT < K.VVENC_WARNING) (h4 : K.VVENC_WARNING < K.VVENC_INFO)
    (h5 : K.VVENC_INFO < K.VVENC_DETAILS) :
    ((ff_vvenc_encode_init K lib L avctx).configured.m_verbosity = K.VVENC_SILENT
        ↔ L < K.AV_LOG_INFO)
    ∧ ((ff_vvenc_encode_init K lib L avctx).configured.m_verbosity = K.VVENC_DETAILS
        ↔ L ≥ K.AV_LOG_DEBUG)
    ∧ (K.AV_LOG_INFO ≤ L → L < K.AV_LOG_VERBOSE →
        (ff_vvenc_encode_init K lib L avctx).configured.m_verbosity = K.VVENC_WARNING)
    ∧ (K.AV_LOG_VERBOSE ≤ L → L < K.AV_LOG_DEBUG →
        (ff_vvenc_encode_init K lib L avctx).configured.m_verbosity = K.VVENC_INFO)
    ∧ (∀ L1 L2 : Int, L1 ≤ L2 →
        (ff_vvenc_encode_init K lib L1 avctx).configured.m_verbosity
          ≤ (ff_vvenc_encode_init K lib L2 avctx).configured.m_verbosity) := by
  refine ⟨?_, ?_, ?_, ?_, ?_⟩
  · rw [init_m_verbosity]
    split_ifs <;> constructor <;> intro h <;> omega
  · rw [init_m_verbosity]
    split_ifs <;> constructor <;> intro h <;> omega
  · intro a b
    rw [init_m_verbosity]
    split_ifs <;> omega
  · intro a b
    rw [init_m_verbosity]
    split_ifs <;> omega
  · intro L1 L2 h
    rw [init_m_verbosity, init_m_verbosity]
    split_ifs <;> omega

/-- C9 with the constants of the public headers: at the host's default level AV_LOG_INFO
(32) the stored verbosity is VVENC_WARNING, so it is neither the quietest nor the loudest. -/
theorem init_verbosity_mapping_witness :
    ((ff_vvenc_encode_init stdHeaders echo_lib 32
        (demo_avctx AV_PIX_FMT_YUV420P 1)).configured.m_verbosity = stdHeaders.VVENC_SILENT
      ↔ (32 : Int) < stdHeaders.AV_LOG_INFO)
    ∧ (ff_vvenc_encode_init stdHeaders echo_lib 32
        (demo_avctx AV_PIX_FMT_YUV420P 1)).configured.m_verbosity = stdHeaders.VVENC_WARNING :=
  have h := init_verbosity_mapping stdHeaders echo_lib (demo_avctx AV_PIX_FMT_YUV420P 1) 32
    (by decide) (by decide) (by decide) (by decide) (by decide)
  ⟨h.1, h.2.2.1 (by decide) (by decide)⟩

/-- C8 as stated fails at thread count 0: the claim asks for m_numThreads = 0, the code
stores -1. -/
theorem init_thread_count_zero :
    (demo_avctx AV_PIX_FMT_YUV420P 0).thread_count = 0
    ∧ (ff_vvenc_encode_init stdHeaders echo_lib 32
        (demo_avctx AV_PIX_FMT_YUV420P 0)).configured.m_numThreads = -1
    ∧ (ff_vvenc_encode_init stdHeaders echo_lib 32
        (demo_avctx AV_PIX_FMT_YUV420P 0)).configured.m_numThreads
      ≠ (demo_avctx AV_PIX_FMT_YUV420P 0).thread_count := by
  refine ⟨rfl, rfl, ?_⟩
  decide

/-- C8 (amended): for every host thread count n passed to ff_vvenc_encode_init, the
configured m_numThreads equals n if n is positive, and is the auto-detect value -1 if n is
0 or negative. -/
theorem init_thread_count {σ : Type} (K : Headers) (lib : VVenCLib σ) (log_level : Int)
    (avctx : AVCodecContext) :
    (0 < avctx.thread_count →
        (ff_vvenc_encode_init K lib log_level avctx).configured.m_numThreads
          = avctx.thread_count)
    ∧ (avctx.thread_count ≤ 0 →
        (ff_vvenc_encode_init K lib log_level avctx).configured.m_numThreads = -1) := by
  rw [init_m_numThreads]
  constructor
  · intro h
    rw [if_pos h]
  · intro h
    rw [if_neg (not_lt.mpr h)]

/-- C6 as stated fails: with a pixel format outside the two supported ones and a library
that opens, ff_vvenc_encode_init returns 0 and has created the encoder handle and both
buffers. -/
theorem init_other_format_succeeds :
    (demo_avctx (AV_PIX_FMT_OTHER 2) 1).pix_fmt ≠ AV_PIX_FMT_YUV420P
    ∧ (demo_avctx (AV_PIX_FMT_OTHER 2) 1).pix_fmt ≠ AV_PIX_FMT_YUV420P10LE
    ∧ (ff_vvenc_encode_init stdHeaders echo_lib 32 (demo_avctx (AV_PIX_FMT_OTHER 2) 1)).ret = 0
    ∧ (ff_vvenc_encode_init stdHeaders echo_lib 32
        (demo_avctx (AV_PIX_FMT_OTHER 2) 1)).encoder.isSome = true
    ∧ (ff_vvenc_encode_init stdHeaders echo_lib 32
        (demo_avctx (AV_PIX_FMT_OTHER 2) 1)).yuvbuf.isSome = true
    ∧ (ff_vvenc_encode_init stdHeaders echo_lib 32
        (demo_avctx (AV_PIX_FMT_OTHER 2) 1)).au.isSome = true := by
  refine ⟨by decide, by decide, rfl, rfl, rfl, rfl⟩

/-- C6 (amended): ff_vvenc_encode_init does not check the pixel format.  For every
configuration, whatever its pixel format, it creates the encoder handle, returns -1 exactly
when the library's vvenc_encoder_open fails, in which case neither the input sample buffer
nor the access-unit buffer is allocated, and returns 0 with both buffers allocated when the
open succeeds; for a format that is neither AV_PIX_FMT_YUV420P nor AV_PIX_FMT_YUV420P10LE it
leaves the three bit depths as vvenc_init_default set them.  Such formats are kept out by
the codec's declared pix_fmts list, which holds exactly the two supported formats. -/
theorem init_pixel_format {σ : Type} (K : Headers) (lib : VVenCLib σ) (log_level : Int)
    (avctx : AVCodecContext) :
    (avctx.pix_fmt ∈ ff_libvvenc_encoder_pix_fmts
        ↔ avctx.pix_fmt = AV_PIX_FMT_YUV420P ∨ avctx.pix_fmt = AV_PIX_FMT_YUV420P10LE)
    ∧ (ff_vvenc_encode_init K lib log_level avctx).encoder.isSome = true
    ∧ ((ff_vvenc_encode_init K lib log_level avctx).ret = -1
        ↔ (open_answer K lib log_level avctx).1 ≠ 0)
    ∧ ((open_answer K lib log_level avctx).1 ≠ 0 →
        (ff_vvenc_encode_init K lib log_level avctx).yuvbuf = none
        ∧ (ff_vvenc_encode_init K lib log_level avctx).au = none)
    ∧ ((open_answer K lib log_level avctx).1 = 0 →
        (ff_vvenc_encode_init K lib log_level avctx).ret = 0
        ∧ (ff_vvenc_encode_init K lib log_level avctx).yuvbuf.isSome = true
        ∧ (ff_vvenc_encode_init K lib log_level avctx).au.isSome = true)
    ∧ (avctx.pix_fmt ≠ AV_PIX_FMT_YUV420P → avctx.pix_fmt ≠ AV_PIX_FMT_YUV420P10LE →
        (ff_vvenc_encode_init K lib log_level avctx).configured.m_inputBitDepth0
            = (lib.vvenc_init_default avctx.width avctx.height avctx.framerate.num
                avctx.bit_rate avctx.global_quality vvencPresetMode.VVENC_FASTER).m_inputBitDepth0
        ∧ (ff_vvenc_encode_init K lib log_level avctx).configured.m_internalBitDepth0
            = (lib.vvenc_init_default avctx.width avctx.height avctx.framerate.num
                avctx.bit_rate avctx.global_quality vvencPresetMode.VVENC_FASTER).m_internalBitDepth0
        ∧ (ff_vvenc_encode_init K lib log_level avctx).configured.m_outputBitDepth0
            = (lib.vvenc_init_default avctx.width avctx.height avctx.framerate.num
                avctx.bit_rate avctx.global_quality vvencPresetMode.VVENC_FASTER).m_outputBitDepth0) := by
  refine ⟨?_, ?_, ?_, ?_, ?_, ?_⟩
  · simp [ff_libvvenc_encoder_pix_fmts]
  · unfold ff_vvenc_encode_init
    simp only []
    split_ifs <;> rfl
  · unfold ff_vvenc_encode_init open_answer
    simp only []
    split_ifs with h <;> simp [h]
  · intro h
    unfold open_answer at h
    unfold ff_vvenc_encode_init
    simp only []
    rw [if_pos h]
    exact ⟨rfl, rfl⟩
  · intro h
    unfold open_answer at h
    unfold ff_vvenc_encode_init
    simp only []
    rw [if_neg (not_not.mpr h)]
    exact ⟨rfl, rfl, rfl⟩
  · intro ha hb
    rw [init_configured]
    unfold init_params
    simp only [if_neg ha, if_neg hb]
    refine ⟨?_, ?_, ?_⟩ <;> split_ifs <;> rfl

/-- The rescale of line 120 with its two rational arguments exchanged, followed by the
rescale of lines 131-132, returns a host timestamp to within one tick whenever the host
time base is no finer than the 90000-tick base. -/
theorem av_rescale_q_round_trip (pts : Int) (tb : AVRational) (hn : 0 < tb.num)
    (hd : 0 < tb.den) (hk : tb.den ≤ 90000 * tb.num) :
    |av_rescale_q (av_rescale_q pts tb (av_make_q 1 90000)) (av_make_q 1 90000) tb - pts| ≤ 1 := by
  have hnq : (0 : ℚ) < (tb.num : ℚ) := by exact_mod_cast hn
  have hdq : (0 : ℚ) < (tb.den : ℚ) := by exact_mod_cast hd
  have hkq : (tb.den : ℚ) ≤ 90000 * (tb.num : ℚ) := by exact_mod_cast hk
  have hK : (1 : ℚ) ≤ tb.toRat * 90000 := by
    unfold AVRational.toRat
    rw [div_mul_eq_mul_div, le_div_iff₀ hdq]
    linarith
  have hKpos : (0 : ℚ) < tb.toRat * 90000 := lt_of_lt_of_le one_pos hK
  have e1 : av_rescale_q pts tb (av_make_q 1 90000)
      = round_nearest ((pts : ℚ) * (tb.toRat * 90000)) := by
    rw [av_rescale_q_eq_round pts tb (av_make_q 1 90000) (le_of_lt hn) hd (by decide) (by decide)]
    congr 1
    unfold AVRational.toRat av_make_q
    push_cast
    field_simp
    ring
  rw [av_rescale_q_ticks _ _ hn hd, e1]
  have n1 := round_nearest_near ((pts : ℚ) * (tb.toRat * 90000))
  have n2 := round_nearest_near
    (((round_nearest ((pts : ℚ) * (tb.toRat * 90000)) : Int) : ℚ) / (tb.toRat * 90000))
  generalize round_nearest ((pts : ℚ) * (tb.toRat * 90000)) = c at n1 n2 ⊢
  generalize round_nearest ((c : ℚ) / (tb.toRat * 90000)) = r at n2 ⊢
  generalize tb.toRat * 90000 = k at hK hKpos n1 n2
  have n3 : |(c : ℚ) / k - (pts : ℚ)| ≤ 1 / 2 := by
    have e : (c : ℚ) / k - (pts : ℚ) = ((c : ℚ) - (pts : ℚ) * k) / k := by
      field_simp
      ring
    rw [e, abs_div, abs_of_pos hKpos, div_le_iff₀ hKpos]
    linarith
  have n4 : |(r : ℚ) - (pts : ℚ)| ≤ 1 := by
    have e : (r : ℚ) - (pts : ℚ) = ((r : ℚ) - (c : ℚ) / k) + ((c : ℚ) / k - (pts : ℚ)) := by ring
    rw [e]
    exact le_trans (abs_add _ _) (by linarith)
  exact_mod_cast n4

/-- C2 at a failing input: time base 1/25 and frame pts 250 (ten seconds).  The claim asks
for cts = round(250 × 1/25 × 90000) = 900000, which is what `av_rescale_q` gives with the
two rationals in the order host base, tick base; the code passes them in the order tick
base, host base and stores cts = round(250 / (1/25 × 90000)) = 0. -/
theorem encode_frame_cts_inverted :
    (ff_vvenc_encode_frame stdHeaders echo_lib (demo_avctx AV_PIX_FMT_YUV420P 1) demo_context
        blank_packet (demo_frame 250) 0).q.yuvbuf.cts = 0
    ∧ (ff_vvenc_encode_frame stdHeaders echo_lib (demo_avctx AV_PIX_FMT_YUV420P 1) demo_context
        blank_packet (demo_frame 250) 0).q.yuvbuf.ctsValid = true
    ∧ round_nearest (((demo_frame 250).pts : ℚ)
        * (demo_avctx AV_PIX_FMT_YUV420P 1).time_base.toRat * 90000) = 900000
    ∧ av_rescale_q (demo_frame 250).pts (demo_avctx AV_PIX_FMT_YUV420P 1).time_base
        (av_make_q 1 demo_context.params.m_TicksPerSecond) = 900000 := by
  refine ⟨by decide, by decide, ?_, by decide⟩
  have e : ((demo_frame 250).pts : ℚ) * (demo_avctx AV_PIX_FMT_YUV420P 1).time_base.toRat * 90000
      = ((900000 : Int) : ℚ) := by
    simp only [demo_frame, demo_avctx, AVRational.toRat]
    norm_num
  rw [e, round_nearest_of_nonneg _ (by norm_num), Int.floor_eq_iff]
  constructor <;> norm_num

/-- C4 at a failing input: time base 1/25 and frame pts 180000.  The input rescale of line
120 stores cts = 50; a library that hands that cts back gets packet pts 0 from the output
rescale of line 132, which is 180000 away from the frame's pts. -/
theorem encode_frame_round_trip_lost :
    (ff_vvenc_encode_frame stdHeaders echo_lib (demo_avctx AV_PIX_FMT_YUV420P 1) demo_context
        blank_packet (demo_frame 180000) 0).q.yuvbuf.cts = 50
    ∧ (ff_vvenc_encode_frame stdHeaders echo_lib (demo_avctx AV_PIX_FMT_YUV420P 1) demo_context
        blank_packet (demo_frame 180000) 0).q.au.cts = 50
    ∧ (ff_vvenc_encode_frame stdHeaders echo_lib (demo_avctx AV_PIX_FMT_YUV420P 1) demo_context
        blank_packet (demo_frame 180000) 0).avpkt.pts = 0
    ∧ ¬ |(ff_vvenc_encode_frame stdHeaders echo_lib (demo_avctx AV_PIX_FMT_YUV420P 1)
          demo_context blank_packet (demo_frame 180000) 0).avpkt.pts
        - (demo_frame 180000).pts| ≤ 1 := by
  refine ⟨by decide, by decide, by decide, by decide⟩

end LibVVenC
